import Mathlib

/-!
Verification of the apniroots crawler (crawler.py, scrape.py).

The embedding models the HTML documents the crawler inspects as a tree of
nodes, BeautifulSoup lookups as pre-order searches over that tree, and the
Python string / float primitives the code relies on as executable functions
over character lists.  Fetching is modelled by a `world` function from URLs
to optional documents (`none` = fetch failure, exactly the `None` returned
by `get_page_content`).
-/

namespace RudrCrawl

/-! ### Python string primitives -/

/-- Model of Python `s.startswith(p)`. -/
def pyStartsWith (s p : String) : Bool := p.data.isPrefixOf s.data

/-- Model of Python `s.endswith(p)`. -/
def pyEndsWith (s p : String) : Bool := p.data.isSuffixOf s.data

/-- Contiguous-sublist test on character lists. -/
def listInfixOf (sub : List Char) : List Char → Bool
  | [] => sub.isEmpty
  | c :: rest => sub.isPrefixOf (c :: rest) || listInfixOf sub rest

/-- Model of the Python substring test `sub in s` (also used for the
`re.compile(r'/products/')` attribute filter and `re.search`-style matching,
since the patterns in the source are plain literals). -/
def pyIn (sub s : String) : Bool := listInfixOf sub.data s.data

/-- Model of Python `s.lower()`: lower-case each character. -/
def pyLower (s : String) : String := String.mk (s.data.map Char.toLower)

/-- Left-to-right, non-overlapping replacement on character lists; the fuel
argument (instantiated with the length of the subject) only makes the
recursion structural. -/
def replaceListAux (pat rep : List Char) : Nat → List Char → List Char
  | _, [] => []
  | 0, s => s
  | fuel + 1, c :: rest =>
    if pat.isPrefixOf (c :: rest) ∧ pat ≠ [] then
      rep ++ replaceListAux pat rep fuel (rest.drop (pat.length - 1))
    else
      c :: replaceListAux pat rep fuel rest

/-- Model of Python `s.replace(pat, rep)` (for a non-empty literal pattern,
which is the only way the source uses it). -/
def pyReplace (s pat rep : String) : String :=
  String.mk (replaceListAux pat.data rep.data s.data.length s.data)

/-! ### Python float model

`float(s)` is only ever called on the output of the price-cleaning
substitution, so its argument consists of ASCII digits and dots.  On that
alphabet Python float parsing succeeds exactly when the string has at most
one dot and at least one digit; the numeric value is modelled exactly as a
rational (the claims never depend on binary rounding). -/

def digitsToNat (cs : List Char) : Nat :=
  cs.foldl (fun a c => a * 10 + (c.toNat - 48)) 0

/-- Model of Python `float(s)` for strings of ASCII digits and dots;
`none` models a raised `ValueError`. -/
def pyFloat? (s : String) : Option Rat :=
  let cs := s.data
  if (cs.all fun c => c.isDigit || c == '.') ∧ cs.count '.' ≤ 1 ∧ (cs.any fun c => c.isDigit) then
    let ip := cs.takeWhile (fun c => c ≠ '.')
    let fp := (cs.dropWhile (fun c => c ≠ '.')).drop 1
    some ((digitsToNat ip : Rat) + (digitsToNat fp : Rat) / ((10 : Rat) ^ fp.length))
  else
    none

/-- crawler.py lines 52/59: `re.sub(r'[^\d.]', '', price_text)` — drop every
character that is not a digit or a dot.  (Python `\d` also accepts non-ASCII
decimal digits; the claims only exercise ASCII text, which this models.) -/
def cleanPrice (price_text : String) : String :=
  String.mk (price_text.data.filter fun c => c.isDigit || c == '.')

/-- crawler.py lines 52-53 / 59-60: clean the price text, then
`float(cleaned_price) if cleaned_price else 0.0`; `none` models the
`ValueError` that `float` raises on a non-empty unparseable string. -/
def priceOfText (price_text : String) : Option Rat :=
  let cleaned_price := cleanPrice price_text
  if cleaned_price = "" then some 0 else pyFloat? cleaned_price

/-! ### Document model and BeautifulSoup lookups -/

mutual
/-- One parsed markup node: a text node, or an element with a tag name, a
class list, an attribute list and children. -/
inductive Node where
  | txt : String → Node
  | elem : String → List String → List (String × String) → NodeList → Node
deriving DecidableEq

/-- Children of an element (a mutual inductive keeps every recursion below
structural, hence kernel-reducible). -/
inductive NodeList where
  | nil : NodeList
  | cons : Node → NodeList → NodeList
deriving DecidableEq
end

def Node.tagName : Node → Option String
  | .txt _ => none
  | .elem t _ _ _ => some t

def Node.clsList : Node → List String
  | .txt _ => []
  | .elem _ cls _ _ => cls

/-- Attribute lookup, `tag['k']` / `'k' in tag.attrs`. -/
def Node.getAttr : Node → String → Option String
  | .txt _, _ => none
  | .elem _ _ attrs _, k => (attrs.find? fun kv => kv.1 == k).map fun kv => kv.2

mutual
/-- BeautifulSoup `node.find(...)`: first pre-order descendant satisfying
the filter (the node itself is not considered). -/
def Node.findD (p : Node → Bool) : Node → Option Node
  | .txt _ => none
  | .elem _ _ _ cs => NodeList.findD p cs

def NodeList.findD (p : Node → Bool) : NodeList → Option Node
  | .nil => none
  | .cons c rest =>
    if p c then some c
    else
      match Node.findD p c with
      | some m => some m
      | none => NodeList.findD p rest
end

mutual
/-- BeautifulSoup `node.find_all(...)`: all pre-order descendants satisfying
the filter. -/
def Node.findAllD (p : Node → Bool) : Node → List Node
  | .txt _ => []
  | .elem _ _ _ cs => NodeList.findAllD p cs

def NodeList.findAllD (p : Node → Bool) : NodeList → List Node
  | .nil => []
  | .cons c rest =>
    (if p c then [c] else []) ++ Node.findAllD p c ++ NodeList.findAllD p rest
end

mutual
/-- BeautifulSoup `node.text`: concatenation of all descendant strings. -/
def Node.textContent : Node → String
  | .txt s => s
  | .elem _ _ _ cs => NodeList.textContent cs

def NodeList.textContent : NodeList → String
  | .nil => ""
  | .cons c rest => Node.textContent c ++ NodeList.textContent rest
end

mutual
/-- All descendant strings of a node, in document order. -/
def Node.strs : Node → List String
  | .txt s => [s]
  | .elem _ _ _ cs => NodeList.strs cs

def NodeList.strs : NodeList → List String
  | .nil => []
  | .cons c rest => Node.strs c ++ NodeList.strs rest
end

/-- BeautifulSoup `node.get_text(separator=' ', strip=True)`: strip each
descendant string, drop the ones that become empty, join with the
separator. -/
def Node.getTextSep (sep : String) (n : Node) : String :=
  String.intercalate sep ((n.strs.map String.trim).filter fun s => s ≠ "")

/-- Filter for `find(tag)`. -/
def tagIs (t : String) (n : Node) : Bool := n.tagName == some t

/-- Filter for `find(tag, class_='c')` with a single class: the class must
be among the element classes. -/
def tagWithCls (t c : String) (n : Node) : Bool :=
  (n.tagName == some t) && n.clsList.contains c

/-- Filter for `find(tag, class_='c1 c2 ...')` with a multi-class string:
BeautifulSoup then requires the exact class-attribute value. -/
def tagWithClsExact (t : String) (cs : List String) (n : Node) : Bool :=
  (n.tagName == some t) && (n.clsList == cs)

/-! ### Field extraction (crawler.py, `parse_product_details`, lines 39-105)

The whole extraction body runs inside one `try`/`except` that returns
`None` on any raised exception (lines 103-105).  Each step below returns
the value the corresponding Python lines compute; the steps that can raise
(`name`, because `name_div.find('h4')` may be `None` and Python then raises
`AttributeError` on `.find('a')`; `price`, because `find_all('span')[-1]`
raises `IndexError` on an empty list and `float` raises `ValueError` on a
non-empty unparseable string) return an `Option`, with `none` modelling the
exception that aborts the record. -/

/-- One catalog entry, crawler.py lines 35-98: the dictionary built by
`parse_product_details`. -/
structure ProductData where
  original_url : String
  product_name : String
  price : Rat
  description : String
  rating : Rat
  category : String
  availability : Bool
  image_url : String
deriving DecidableEq

/-- crawler.py lines 41-43 (product name).  `none` models the
`AttributeError` raised when the title div exists but holds no `h4`. -/
def nameStep (soup : Node) : Option String :=
  match soup.findD (tagWithCls "div" "product-collection__title") with
  | none => some "N/A"
  | some name_div =>
    match name_div.findD (tagIs "h4") with
    | none => none
    | some h4 =>
      match h4.findD (tagIs "a") with
      | some name_tag => some name_tag.textContent.trim
      | none => some "N/A"

/-- crawler.py lines 46-64 (price).  `none` models the `IndexError` from
`find_all('span')[-1]` on a sale-price node with no nested spans and the
`ValueError` from `float` on unparseable cleaned text. -/
def priceStep (soup : Node) : Option Rat :=
  match soup.findD (tagWithCls "div" "product-collection__price") with
  | none => some 0
  | some price_span_container =>
    match price_span_container.findD (tagWithCls "span" "price--sale") with
    | some price_spans =>
      match (price_spans.findAllD (tagIs "span")).getLast? with
      | none => none
      | some current_price_tag => priceOfText current_price_tag.textContent.trim
    | none =>
      match price_span_container.findD (tagWithCls "span" "price") with
      | none => some 0
      | some single_price_tag =>
        match single_price_tag.findD (tagIs "bdi") with
        | some amount_tag => priceOfText amount_tag.textContent.trim
        | none => priceOfText single_price_tag.textContent.trim

/-- crawler.py lines 67-69 (description). -/
def descStep (soup : Node) : String :=
  match soup.findD (tagWithCls "div" "product-collection__description") with
  | none => "N/A"
  | some desc_div =>
    match desc_div.findD (tagWithCls "p" "m-0") with
    | some desc_tag => desc_tag.getTextSep " "
    | none => "N/A"

/-- crawler.py lines 75-77 (category, taken from the vendor block). -/
def categoryStep (soup : Node) : String :=
  match soup.findD (tagWithCls "div" "product-collection__more-info") with
  | none => "N/A"
  | some vendor_info_div =>
    match vendor_info_div.findD (tagIs "a") with
    | some vendor_tag => vendor_tag.textContent.trim
    | none => "N/A"

/-- The availability text node the code tests: the first `span` inside the
availability div, when both exist (crawler.py lines 80-83). -/
def availabilityNode (soup : Node) : Option Node :=
  match soup.findD (tagWithCls "div" "product-collection__availability") with
  | none => none
  | some availability_div => availability_div.findD (tagIs "span")

/-- crawler.py lines 80-88 (availability). -/
def availabilityStep (soup : Node) : Bool :=
  match soup.findD (tagWithCls "div" "product-collection__availability") with
  | none => true
  | some availability_div =>
    match availability_div.findD (tagIs "span") with
    | none => true
    | some availability_span => pyIn "in stock" (pyLower availability_span.textContent)

/-- crawler.py lines 95-96: substitute the width placeholder, then prefix
`https:` exactly when the result is protocol-relative. -/
def normalizeImage (v : String) : String :=
  let base_image_url := pyReplace v "\x7bwidth\x7dx" "1000x"
  if pyStartsWith base_image_url "//" then "https:" ++ base_image_url else base_image_url

/-- crawler.py lines 91-98 (image URL). -/
def imageStep (soup : Node) : String :=
  match soup.findD (tagWithCls "div" "rimage") with
  | none => "N/A"
  | some rimage_div =>
    match rimage_div.findD (tagIs "img") with
    | none => "N/A"
    | some img_tag =>
      match img_tag.getAttr "data-master" with
      | some v => normalizeImage v
      | none => "N/A"

/-- crawler.py lines 34-105, `parse_product_details` applied to an already
fetched document: build the record field by field; `none` models the
`except` branch (lines 103-105) that drops the record when a step raises. -/
def parse_product_details (product_url : String) (soup : Node) : Option ProductData :=
  match nameStep soup with
  | none => none
  | some product_name =>
    match priceStep soup with
    | none => none
    | some price =>
      some {
        original_url := product_url
        product_name := product_name
        price := price
        description := descStep soup
        rating := 0
        category := categoryStep soup
        availability := availabilityStep soup
        image_url := imageStep soup
      }

/-- crawler.py lines 30-32 composed with the body: fetch the detail page
through the world (`get_page_content`; `none` = fetch failure) and extract.
-/
def fetchParse (world : String → Option Node) (product_url : String) : Option ProductData :=
  match world product_url with
  | none => none
  | some soup => parse_product_details product_url soup

/-! ### Pagination controller (crawler.py, `crawl_shop_pages`, lines 107-184) -/

/-- Scheme part of an absolute URL: the text up to and including the first
colon. -/
def schemeOf (u : String) : String :=
  String.mk ((u.data.takeWhile fun c => c ≠ ':') ++ [':'])

/-- Scheme plus authority of an absolute URL: text up to the first slash
after `://`. -/
def originOf (u : String) : String :=
  let cs := u.data
  let scheme := cs.takeWhile fun c => c ≠ ':'
  let rest := (cs.dropWhile fun c => c ≠ ':').drop 3
  String.mk (scheme ++ [':', '/', '/'] ++ rest.takeWhile fun c => c ≠ '/')

/-- Base URL truncated after its last slash (used for resolving relative
references); a base with no slash beyond the scheme gets one appended. -/
def dirOf (u : String) : String :=
  let cs := u.data
  let tailLen := (cs.reverse.takeWhile fun c => c ≠ '/').length
  if tailLen = cs.length then String.mk (cs ++ ['/'])
  else String.mk (cs.take (cs.length - tailLen))

/-- Model of `requests.compat.urljoin(base, href)` for the reference shapes
this crawler produces: protocol-relative, host-relative, and plain relative
references against an absolute base (no dot-segments, queries or
fragments).  Every fixture below uses absolute hrefs, which bypass this
function entirely, as in the source. -/
def urljoin (base href : String) : String :=
  if pyStartsWith href "//" then schemeOf base ++ href
  else if pyStartsWith href "/" then originOf base ++ href
  else if href = "" then base
  else dirOf base ++ href

/-- crawler.py line 112: page 1 is the bare base URL, later pages append a
page-index path segment. -/
def pageURL (base_shop_url : String) (page_num : Nat) : String :=
  if page_num > 1 then base_shop_url ++ "/page/" ++ toString page_num ++ "/"
  else base_shop_url

/-- crawler.py line 123: the product cards of a listing page
(`find_all('div', class_='col-sm-6 col-md-4 col-lg-4 col-xl-4')`, a
multi-class query, hence an exact class-attribute match). -/
def productCards (soup : Node) : List Node :=
  soup.findAllD (tagWithClsExact "div" ["col-sm-6", "col-md-4", "col-lg-4", "col-xl-4"])

/-- Filter of crawler.py line 134: an `a` tag whose `href` attribute exists
and contains `/products/`. -/
def isProductLinkTag (n : Node) : Bool :=
  tagIs "a" n &&
    (match n.getAttr "href" with
     | some href => pyIn "/products/" href
     | none => false)

/-- crawler.py lines 134-139: first matching link of a card, made absolute
when it does not already start with `http`. -/
def resolveCardLink (base_shop_url : String) (item : Node) : Option String :=
  match item.findD isProductLinkTag with
  | none => none
  | some product_link_tag =>
    (product_link_tag.getAttr "href").map fun href =>
      if pyStartsWith href "http" then href else urljoin base_shop_url href

/-- crawler.py line 144: the URL a card leads the crawler to fetch, if any —
the resolved link, gated by the detail-page shape check
(`'/products/' in product_url and not product_url.endswith('/')`). -/
def cardFetchURL (base_shop_url : String) (item : Node) : Option String :=
  match resolveCardLink base_shop_url item with
  | none => none
  | some product_url =>
    if pyIn "/products/" product_url && !(pyEndsWith product_url "/") then some product_url
    else none

/-- crawler.py lines 144-147 for one card: fetch and extract the detail page
when the card qualifies; `none` contributes nothing to the collected list. -/
def extractCard (world : String → Option Node) (base_shop_url : String) (item : Node) :
    Option ProductData :=
  match cardFetchURL base_shop_url item with
  | none => none
  | some product_url => fetchParse world product_url

/-- crawler.py lines 131-148: the per-card loop over a listing page,
appending each successfully extracted record in card order. -/
def processItems (world : String → Option Node) (base_shop_url : String)
    (items : List Node) : List ProductData :=
  items.filterMap (extractCard world base_shop_url)

/-- crawler.py lines 153-155: the pagination region, by two alternative
selectors. -/
def paginationRegion (soup : Node) : Option Node :=
  match soup.findD (tagWithCls "nav" "woocommerce-pagination") with
  | some nav => some nav
  | none => soup.findD (tagWithCls "div" "pagination-bar__wrapper")

/-- crawler.py lines 157-164: the `href` of the next-page link, when a
region, a link and its attribute all exist. -/
def nextLinkHref (soup : Node) : Option String :=
  match paginationRegion soup with
  | none => none
  | some pagination_nav =>
    let next_link_tag :=
      match pagination_nav.findD (tagWithCls "a" "next") with
      | some t => some t
      | none => pagination_nav.findD (tagWithClsExact "a" ["next", "page-numbers"])
    match next_link_tag with
    | none => none
    | some t => t.getAttr "href"

/-- crawler.py lines 166-171: the resolved absolute next-page URL. -/
def nextPageURL (base_shop_url : String) (soup : Node) : Option String :=
  (nextLinkHref soup).map fun h =>
    if pyStartsWith h "http" then h else urljoin base_shop_url h

/-- How one crawl run ended, following the state machine of the design:
`done` for the three normal exhaustion breaks, `failed` for a listing-page
fetch failure. -/
inductive CrawlOutcome where
  | done : CrawlOutcome
  | failed : CrawlOutcome
deriving DecidableEq

/-- crawler.py lines 111-182, the `while True` pagination loop.  `fuel`
bounds the number of iterations observed (the Python loop carries no such
bound); `none` in the second component means the bound was hit before the
loop broke.  Note the source advances by incrementing `page_num` — the
resolved next link is used only for the same-URL cycle check. -/
def crawlLoop (world : String → Option Node) (base_shop_url : String) :
    Nat → Nat → List ProductData → List ProductData × Option CrawlOutcome
  | 0, _, acc => (acc, none)
  | fuel + 1, page_num, acc =>
    let current_page_url := pageURL base_shop_url page_num
    match world current_page_url with
    | none => (acc, some CrawlOutcome.failed)
    | some soup =>
      let product_list_items := productCards soup
      if product_list_items.isEmpty then (acc, some CrawlOutcome.done)
      else
        let acc2 := acc ++ processItems world base_shop_url product_list_items
        match nextPageURL base_shop_url soup with
        | none => (acc2, some CrawlOutcome.done)
        | some next_page_url =>
          if next_page_url = current_page_url then (acc2, some CrawlOutcome.done)
          else crawlLoop world base_shop_url fuel (page_num + 1) acc2

/-- crawler.py lines 107-184, `crawl_shop_pages`: run the pagination loop
from page 1 with an empty accumulator. -/
def crawl_shop_pages (world : String → Option Node) (base_shop_url : String)
    (fuel : Nat) : List ProductData × Option CrawlOutcome :=
  crawlLoop world base_shop_url fuel 1 []

/-! ### Dynamic-rendering variant (scrape.py) -/

/-- scrape.py lines 116-121: the image normalization of the rendered
extractor — substitute the width placeholder with `1024x`, then prefix
`https:` exactly when the result does not already start with `http`. -/
def normalizeImageDyn (v : String) : String :=
  let image_url := pyReplace v "\x7bwidth\x7dx" "1024x"
  if !(pyStartsWith image_url "http") then "https:" ++ image_url else image_url

/-- scrape.py lines 55-71, the infinite-scroll stabilization loop over an
abstract sequence of page-height measurements (`heights i` is the value of
`document.body.scrollHeight` at the i-th evaluation; index 0 is the initial
read on line 53).  Returns the index of the measurement at which the loop
broke; `fuel` bounds the number of iterations observed and `none` means the
bound was hit first. -/
def scrollLoopAux (heights : Nat → Nat) : Nat → Nat → Nat → Option Nat
  | 0, _, _ => none
  | fuel + 1, i, last_height =>
    let new_height := heights i
    if new_height = last_height then some i
    else scrollLoopAux heights fuel (i + 1) new_height

/-- scrape.py lines 53-71: run the stabilization loop from the initial
height measurement. -/
def scrollStabilize (heights : Nat → Nat) (fuel : Nat) : Option Nat :=
  scrollLoopAux heights fuel 1 (heights 0)

/-! ### Concrete fixtures for the witnesses and counterexamples -/

/-- Build a child list from a plain list of nodes. -/
def nl : List Node → NodeList
  | [] => NodeList.nil
  | n :: t => NodeList.cons n (nl t)

/-- A detail page whose price container holds a sale-price node with no
nested spans (the shape whose extraction raises `IndexError`). -/
def docC1ce : Node :=
  Node.elem "html" [] [] (nl [
    Node.elem "div" ["product-collection__price"] [] (nl [
      Node.elem "span" ["price", "price--sale"] [] (nl [Node.txt "$10.00"])])])

/-- A detail page with none of the recognised containers: every field falls
back to its default. -/
def docC1w : Node := Node.elem "html" [] [] (nl [Node.txt "bare page"])

/-- The record extracted from `docC1w`: all defaults. -/
def recC1w : ProductData :=
  { original_url := "http://s1/products/a"
    product_name := "N/A"
    price := 0
    description := "N/A"
    rating := 0
    category := "N/A"
    availability := true
    image_url := "N/A" }

/-- Listing page with no product cards at all. -/
def docC3a : Node := Node.elem "html" [] [] (nl [Node.txt "empty"])

/-- One linkless product card, used by several pagination fixtures. -/
def cardC3 : Node :=
  Node.elem "div" ["col-sm-6", "col-md-4", "col-lg-4", "col-xl-4"] [] (nl [Node.txt "card"])

/-- Listing page with one card and no pagination region. -/
def docC3b : Node := Node.elem "html" [] [] (nl [cardC3])

/-- Listing page with one card whose next-page link points back at the
page itself. -/
def docC3c : Node :=
  Node.elem "html" [] [] (nl [
    cardC3,
    Node.elem "nav" ["woocommerce-pagination"] [] (nl [
      Node.elem "a" ["next"] [("href", "http://s3")] (nl [Node.txt "next"])])])

/-- Worlds serving each pagination fixture at the base URL `http://s3`. -/
def worldC3a : String → Option Node := fun u => if u = "http://s3" then some docC3a else none

def worldC3b : String → Option Node := fun u => if u = "http://s3" then some docC3b else none

def worldC3c : String → Option Node := fun u => if u = "http://s3" then some docC3c else none

/-- A card linking a qualifying detail URL (used with a world in which every
fetch fails). -/
def cardC4 : Node :=
  Node.elem "div" ["col-sm-6", "col-md-4", "col-lg-4", "col-xl-4"] [] (nl [
    Node.elem "a" [] [("href", "http://s4/products/x")] (nl [Node.txt "item"])])

/-- A world in which every fetch fails. -/
def worldC4 : String → Option Node := fun _ => none

/-- The availability span of `docC5`. -/
def spanC5 : Node := Node.elem "span" [] [] (nl [Node.txt "5 In Stock"])

/-- A detail page carrying an availability node that reads `5 In Stock`. -/
def docC5 : Node :=
  Node.elem "html" [] [] (nl [
    Node.elem "div" ["product-collection__availability"] [] (nl [spanC5])])

/-- The record extracted from `docC5`. -/
def recC5 : ProductData :=
  { original_url := "http://s5/products/a"
    product_name := "N/A"
    price := 0
    description := "N/A"
    rating := 0
    category := "N/A"
    availability := true
    image_url := "N/A" }

/-- A detail page whose image source is a bare relative path. -/
def docC6 : Node :=
  Node.elem "html" [] [] (nl [
    Node.elem "div" ["rimage"] [] (nl [
      Node.elem "img" [] [("data-master", "img.jpg")] NodeList.nil])])

/-- The record extracted from `docC6`: the image URL is emitted verbatim. -/
def recC6 : ProductData :=
  { original_url := "http://s6/products/a"
    product_name := "N/A"
    price := 0
    description := "N/A"
    rating := 0
    category := "N/A"
    availability := true
    image_url := "img.jpg" }

/-- A card linking a detail-shaped product URL. -/
def cardC7 : Node :=
  Node.elem "div" ["col-sm-6", "col-md-4", "col-lg-4", "col-xl-4"] [] (nl [
    Node.elem "a" [] [("href", "https://shop.example/products/item-1")] (nl [Node.txt "item"])])

/-- A card linking a collection-style URL with a trailing slash. -/
def cardC7b : Node :=
  Node.elem "div" ["col-sm-6", "col-md-4", "col-lg-4", "col-xl-4"] [] (nl [
    Node.elem "a" [] [("href", "https://shop.example/products/summer-collection/")]
      (nl [Node.txt "collection"])])

/-- A listing page with two cards linking the same product detail URL. -/
def docC8 : Node :=
  Node.elem "html" [] [] (nl [
    Node.elem "div" ["col-sm-6", "col-md-4", "col-lg-4", "col-xl-4"] [] (nl [
      Node.elem "a" [] [("href", "http://s8/products/a")] (nl [Node.txt "first card"])]),
    Node.elem "div" ["col-sm-6", "col-md-4", "col-lg-4", "col-xl-4"] [] (nl [
      Node.elem "a" [] [("href", "http://s8/products/a")] (nl [Node.txt "second card"])])])

/-- The (featureless) detail page behind `http://s8/products/a`. -/
def docC8p : Node := Node.elem "html" [] [] (nl [Node.txt "product"])

/-- A world serving the duplicate-link listing and its product page. -/
def worldC8 : String → Option Node := fun u =>
  if u = "http://s8" then some docC8
  else if u = "http://s8/products/a" then some docC8p
  else none

/-- Height measurements that drop once and then hold steady: 10, 8, 8, ... -/
def heightsC9ce : Nat → Nat := fun n => if n = 0 then 10 else 8

/-- Height measurements that grow and then stabilize: 0, 1, 2, 3, 3, ... -/
def heightsC9w : Nat → Nat := fun n => min n 3

/-- The sale-price node of `docC10`: no nested spans. -/
def saleC10 : Node := Node.elem "span" ["price--sale"] [] (nl [Node.txt "$5.49"])

/-- The price container of `docC10`. -/
def containerC10 : Node := Node.elem "div" ["product-collection__price"] [] (nl [saleC10])

/-- A detail page exhibiting the malformed-sale-price shape, together with a
resolvable product name. -/
def docC10 : Node :=
  Node.elem "html" [] [] (nl [
    Node.elem "div" ["product-collection__title"] [] (nl [
      Node.elem "h4" [] [] (nl [
        Node.elem "a" [] [] (nl [Node.txt "Ghee 1kg"])])]),
    containerC10])

/-! ### Shared lemmas -/

/-- A successful extraction fixes every non-fallible field of the record to
the value of the corresponding step. -/
lemma parse_product_details_some (product_url : String) (doc : Node) (rec : ProductData)
    (h : parse_product_details product_url doc = some rec) :
    rec.original_url = product_url ∧ rec.description = descStep doc ∧
      rec.category = categoryStep doc ∧ rec.availability = availabilityStep doc ∧
      rec.image_url = imageStep doc ∧ rec.rating = 0 := by
  unfold parse_product_details at h
  cases hn : nameStep doc <;> rw [hn] at h
  · cases h
  cases hp : priceStep doc <;> rw [hp] at h
  · cases h
  cases h
  exact ⟨rfl, rfl, rfl, rfl, rfl, rfl⟩

lemma isPrefixOf_append_self (l t : List Char) : l.isPrefixOf (l ++ t) = true := by
  induction l with
  | nil => simp
  | cons a as ih => simp [ List.isPrefixOf_cons₂, ih]

lemma two_slash_structure {l : List Char} (h : (['/', '/'] : List Char).isPrefixOf l = true) :
    ∃ t, l = '/' :: '/' :: t := by
  cases l with
  | nil => simp [ List.isPrefixOf] at h
  | cons a l1 =>
    cases l1 with
    | nil => simp [ List.isPrefixOf] at h
    | cons b l2 =>
      simp only [ List.isPrefixOf, Bool.and_eq_true, beq_iff_eq] at h
      obtain ⟨ha, hb, -⟩ := h
      exact ⟨l2, by rw [← ha, ← hb]⟩

lemma head_ne_not_isPrefixOf {a b : Char} {p l : List Char} (h : (a == b) = false) :
    List.isPrefixOf (a :: p) (b :: l) = false := by
  simp [ List.isPrefixOf, h]

/-! ### Claim C2 -/

/-- Claim C2 counterexample: on the price text `1.2.3` the cleaning step
keeps both decimal points and the float parse raises (the record is
dropped), instead of yielding 0.0. -/
theorem price_cleaning_counterexample :
    (cleanPrice "1.2.3").data.count '.' = 2 ∧ priceOfText "1.2.3" = none :=
  ⟨by decide, rfl⟩

/-- Claim C2 (amended): the cleaned price text contains only digits and
decimal points, but possibly several points; empty cleaned text yields
exactly 0.0, while a non-empty cleaned text fails to parse (raising, and so
dropping the record) exactly when it has more than one decimal point or no
digit at all. -/
theorem price_cleaning_amended (s : String) :
    ((cleanPrice s).data.all fun c => c.isDigit || c == '.') = true
    ∧ (cleanPrice s = "" → priceOfText s = some 0)
    ∧ (priceOfText s = none ↔
        cleanPrice s ≠ "" ∧
          ¬((cleanPrice s).data.count '.' ≤ 1 ∧
            ((cleanPrice s).data.any fun c => c.isDigit) = true)) := by
  have hall : ((cleanPrice s).data.all fun c => c.isDigit || c == '.') = true := by
    simp only [List.all_eq_true]
    intro c hc
    exact (List.mem_filter.mp hc).2
  refine ⟨hall, ?_, ?_⟩
  · intro h
    simp [priceOfText, h]
  · by_cases hc : cleanPrice s = ""
    · simp [priceOfText, hc]
    · have he : priceOfText s = pyFloat? (cleanPrice s) := by
        simp [priceOfText, hc]
      rw [he]
      unfold pyFloat?
      by_cases hg : (cleanPrice s).data.count '.' ≤ 1 ∧
          ((cleanPrice s).data.any fun c => c.isDigit) = true
      · rw [if_pos ⟨hall, hg.1, hg.2⟩]
        simp [hg]
      · rw [if_neg fun hfull => hg ⟨hfull.2.1, hfull.2.2⟩]
        simpa [hc] using hg

/-- Witness for the amended C2: the letters-only price text cleans to the
empty string and the price becomes exactly 0.0. -/
theorem price_cleaning_amended_witness : priceOfText "abc" = some 0 :=
  (price_cleaning_amended "abc").2.1 (by decide)

/-! ### Claim C9 -/

/-- The scroll loop started at index `k`, with the previous measurement as
its reference, breaks at the first later index whose measurement equals the
one just before it. -/
lemma scrollLoopAux_first_repeat (heights : Nat → Nat) :
    ∀ fuel k i, 1 ≤ k → k ≤ i → i - k < fuel →
      heights i = heights (i - 1) →
      (∀ j, j < i → k ≤ j → heights j ≠ heights (j - 1)) →
      scrollLoopAux heights fuel k (heights (k - 1)) = some i := by
  intro fuel
  induction fuel with
  | zero =>
    intro k i _ hki hlt _ _
    omega
  | succ f ih =>
    intro k i hk hki hlt hstop hbefore
    by_cases hk_i : k = i
    · subst hk_i
      simp only [scrollLoopAux]
      rw [if_pos hstop]
    · have hklt : k < i := lt_of_le_of_ne hki hk_i
      have hne : heights k ≠ heights (k - 1) := hbefore k hklt (le_refl k)
      simp only [scrollLoopAux]
      rw [if_neg hne]
      exact ih (k + 1) i (by omega) (by omega) (by omega) hstop
        (fun j hj hkj => hbefore j hj (by omega))

/-- Claim C9 (amended): the stabilization loop exits at the first iteration
whose post-scroll height EQUALS the height recorded before it; a strictly
smaller measurement does not exit the loop (it replaces the reference and
scrolling continues), so "not greater" is not the exit condition. -/
theorem scroll_loop_exit_amended (heights : Nat → Nat) (i fuel : Nat)
    (h1 : 1 ≤ i) (hfuel : i ≤ fuel)
    (hstop : heights i = heights (i - 1))
    (hbefore : ∀ j, j < i → 1 ≤ j → heights j ≠ heights (j - 1)) :
    scrollStabilize heights fuel = some i := by
  unfold scrollStabilize
  exact scrollLoopAux_first_repeat heights fuel 1 i (le_refl 1) h1 (by omega) hstop hbefore

/-- Witness for the amended C9: heights 0,1,2,3,3,... make the loop exit at
iteration 4, the first repeat. -/
theorem scroll_loop_exit_amended_witness : scrollStabilize heightsC9w 10 = some 4 :=
  scroll_loop_exit_amended heightsC9w 4 10 (by decide) (by decide) (by decide) (by decide)

/-- Claim C9 counterexample: with measurements 10, 8, 8, ... the height at
iteration 1 is already not greater than the height before it, yet the loop
does not exit there — it exits at iteration 2, when the height repeats. -/
theorem scroll_loop_exit_counterexample :
    scrollStabilize heightsC9ce 5 = some 2
    ∧ ¬ heightsC9ce 1 > heightsC9ce 0
    ∧ scrollStabilize heightsC9ce 5 ≠ some 1 :=
  ⟨rfl, by decide, by decide⟩

/-! ### Claim C10 -/

/-- Claim C10: a document whose price container holds a sale-price node with
no nested span elements makes the whole extraction raise, so the product
yields no record at all (and a card fetching such a page is skipped by the
controller) — the malformed-sale-price case bypasses the per-field default
of 0.0. -/
theorem malformed_sale_price_drops_record (product_url : String)
    (doc container sale : Node)
    (hc : doc.findD (tagWithCls "div" "product-collection__price") = some container)
    (hs : container.findD (tagWithCls "span" "price--sale") = some sale)
    (hno : sale.findAllD (tagIs "span") = []) :
    parse_product_details product_url doc = none
    ∧ ∀ world : String → Option Node, world product_url = some doc →
        fetchParse world product_url = none := by
  have hprice : priceStep doc = none := by
    unfold priceStep
    simp only [hc, hs, hno, List.getLast?_nil]
  have hparse : parse_product_details product_url doc = none := by
    unfold parse_product_details
    cases hn : nameStep doc <;> simp [hprice]
  refine ⟨hparse, fun world hw => ?_⟩
  unfold fetchParse
  rw [hw]
  exact hparse

/-- Witness for C10 at a concrete malformed page. -/
theorem malformed_sale_price_drops_record_witness :
    parse_product_details "http://s10/products/a" docC10 = none
    ∧ fetchParse (fun u => if u = "http://s10/products/a" then some docC10 else none)
        "http://s10/products/a" = none := by
  have h := malformed_sale_price_drops_record "http://s10/products/a" docC10 containerC10
    saleC10 rfl rfl rfl
  exact ⟨h.1, h.2 _ rfl⟩

/-! ### Claim C1 -/

/-- Claim C1 counterexample: the extractor is not total — on a page whose
sale-price node has no nested spans the record is dropped entirely rather
than defaulted, so an internal lookup error does abort the record. -/
theorem extractor_total_counterexample :
    parse_product_details "http://s1/products/b" docC1ce = none := rfl

/-- Claim C1 (amended): extraction returns a fully-populated record exactly
when no internal lookup raises — that is, when the name step (title block
present but without a heading raises) and the price step (sale-price node
without nested spans, or unparseable cleaned price text, raises) both
succeed; every other missing field quietly becomes its documented default,
and a successful record carries all eight fields. -/
theorem extractor_totality_amended (product_url : String) (doc : Node) :
    ((parse_product_details product_url doc).isSome ↔
      (nameStep doc).isSome ∧ (priceStep doc).isSome)
    ∧ ∀ rec, parse_product_details product_url doc = some rec →
        rec.original_url = product_url ∧ rec.description = descStep doc ∧
          rec.category = categoryStep doc ∧ rec.availability = availabilityStep doc ∧
          rec.image_url = imageStep doc ∧ rec.rating = 0 := by
  constructor
  · unfold parse_product_details
    cases nameStep doc <;> cases priceStep doc <;> simp
  · intro rec h
    exact parse_product_details_some product_url doc rec h

/-- Witness for the amended C1 on a page with none of the recognised
containers: every field falls back to its default. -/
theorem extractor_totality_amended_witness :
    recC1w.original_url = "http://s1/products/a" ∧ recC1w.description = descStep docC1w ∧
      recC1w.category = categoryStep docC1w ∧ recC1w.availability = availabilityStep docC1w ∧
      recC1w.image_url = imageStep docC1w ∧ recC1w.rating = 0 :=
  (extractor_totality_amended "http://s1/products/a" docC1w).2 recC1w rfl

/-! ### Claim C5 -/

/-- Claim C5: availability truth table — no availability text node means
`true`; with a node, availability is exactly the lower-cased substring test
for `in stock`, so `Out of stock` gives `false` and `5 In Stock` gives
`true`. -/
theorem availability_truth_table (product_url : String) (doc : Node) (rec : ProductData)
    (h : parse_product_details product_url doc = some rec) :
    (availabilityNode doc = none → rec.availability = true)
    ∧ (∀ sp, availabilityNode doc = some sp →
        rec.availability = pyIn "in stock" (pyLower sp.textContent))
    ∧ pyIn "in stock" (pyLower "Out of stock") = false
    ∧ pyIn "in stock" (pyLower "5 In Stock") = true := by
  have hav : rec.availability = availabilityStep doc :=
    (parse_product_details_some product_url doc rec h).2.2.2.1
  refine ⟨?_, ?_, by decide, by decide⟩
  · intro hnone
    rw [hav]
    cases hd : doc.findD (tagWithCls "div" "product-collection__availability") with
    | none => simp [availabilityStep, hd]
    | some d =>
      simp only [availabilityNode, hd] at hnone
      simp [availabilityStep, hd, hnone]
  · intro sp hsp
    rw [hav]
    cases hd : doc.findD (tagWithCls "div" "product-collection__availability") with
    | none => simp [availabilityNode, hd] at hsp
    | some d =>
      simp only [availabilityNode, hd] at hsp
      simp [availabilityStep, hd, hsp]

/-- Witness for C5 at a page whose availability node reads `5 In Stock`. -/
theorem availability_truth_table_witness :
    recC5.availability = pyIn "in stock" (pyLower spanC5.textContent)
    ∧ recC5.availability = true :=
  ⟨(availability_truth_table "http://s5/products/a" docC5 recC5 rfl).2.1 spanC5 rfl, rfl⟩

/-! ### Claim C6 -/

/-- Claim C6 counterexample: an image source that is neither
protocol-relative nor absolute (here `img.jpg`) is emitted verbatim by the
static extractor — neither `https://`- nor `http://`-qualified and not the
`N/A` default; the rendered extractor turns the host-relative `/img.jpg`
into the unqualified `https:/img.jpg`. -/
theorem image_url_qualified_counterexample :
    parse_product_details "http://s6/products/a" docC6 = some recC6
    ∧ recC6.image_url = "img.jpg"
    ∧ recC6.image_url ≠ "N/A"
    ∧ pyStartsWith recC6.image_url "https://" = false
    ∧ pyStartsWith recC6.image_url "http://" = false
    ∧ normalizeImageDyn "/img.jpg" = "https:/img.jpg"
    ∧ pyStartsWith "https:/img.jpg" "https://" = false :=
  ⟨rfl, rfl, by decide, by decide, by decide, rfl, by decide⟩

/-- Claim C6 (amended): a protocol-relative image source (after width
substitution) is rewritten by prefixing `https:`, yielding an
`https://`-qualified URL; any other source is passed through unchanged; the
emitted value is never protocol-relative — but a source that is neither
protocol-relative nor already protocol-qualified is emitted unqualified, so
not every non-default imageURL is protocol-qualified. -/
theorem image_url_normalization_amended (v : String) :
    (pyStartsWith (pyReplace v "\x7bwidth\x7dx" "1000x") "//" = true →
      normalizeImage v = "https:" ++ pyReplace v "\x7bwidth\x7dx" "1000x"
      ∧ pyStartsWith (normalizeImage v) "https://" = true)
    ∧ (pyStartsWith (pyReplace v "\x7bwidth\x7dx" "1000x") "//" = false →
      normalizeImage v = pyReplace v "\x7bwidth\x7dx" "1000x")
    ∧ pyStartsWith (normalizeImage v) "//" = false := by
  have hsplit : ∀ b : String, pyStartsWith b "//" = true →
      pyStartsWith ("https:" ++ b) "https://" = true := by
    intro b hb
    unfold pyStartsWith at *
    obtain ⟨t, ht⟩ := two_slash_structure hb
    rw [String.data_append, ht]
    have e1 : "https://".data = "https:".data ++ ['/', '/'] := by decide
    have e2 : "https:".data ++ '/' :: '/' :: t = ("https:".data ++ ['/', '/']) ++ t := by
      simp
    rw [e1, e2]
    exact isPrefixOf_append_self _ _
  have hnotrel : ∀ b : String, pyStartsWith ("https:" ++ b) "//" = false := by
    intro b
    unfold pyStartsWith
    rw [String.data_append]
    have e1 : "https:".data = 'h' :: "ttps:".data := by decide
    have e2 : "//".data = '/' :: "/".data := by decide
    rw [e1, e2, List.cons_append]
    exact head_ne_not_isPrefixOf (by decide)
  by_cases hb : pyStartsWith (pyReplace v "\x7bwidth\x7dx" "1000x") "//" = true
  · have h1 : normalizeImage v = "https:" ++ pyReplace v "\x7bwidth\x7dx" "1000x" := by
      simp only [normalizeImage]
      rw [if_pos hb]
    refine ⟨fun _ => ⟨h1, ?_⟩, fun hcon => absurd hb (by simp [hcon]), ?_⟩
    · rw [h1]
      exact hsplit _ hb
    · rw [h1]
      exact hnotrel _
  · have hb' : pyStartsWith (pyReplace v "\x7bwidth\x7dx" "1000x") "//" = false := by
      revert hb
      cases pyStartsWith (pyReplace v "\x7bwidth\x7dx" "1000x") "//" <;> simp
    have h1 : normalizeImage v = pyReplace v "\x7bwidth\x7dx" "1000x" := by
      simp only [normalizeImage]
      rw [if_neg (by simp [hb'])]
    refine ⟨fun hcon => absurd hcon hb, fun _ => h1, ?_⟩
    rw [h1]
    exact hb'

/-- Witness for the amended C6: a protocol-relative CDN source is rewritten
to an `https://`-qualified URL. -/
theorem image_url_normalization_amended_witness :
    normalizeImage "//cdn.site.com/img.jpg" =
      "https:" ++ pyReplace "//cdn.site.com/img.jpg" "\x7bwidth\x7dx" "1000x"
    ∧ pyStartsWith (normalizeImage "//cdn.site.com/img.jpg") "https://" = true :=
  (image_url_normalization_amended "//cdn.site.com/img.jpg").1 (by decide)

/-! ### Claim C7 -/

/-- Claim C7: the controller fetches and extracts a detail page for a card
exactly when the card resolves to an absolute link URL that contains
`/products/` and does not end in a trailing slash; a card whose link cannot
be fetched contributes nothing; and in particular a resolved link to
`/products/summer-collection/` is excluded. -/
theorem detail_link_heuristic (base_shop_url : String) (item : Node) :
    (∀ u, cardFetchURL base_shop_url item = some u ↔
      (resolveCardLink base_shop_url item = some u
        ∧ pyIn "/products/" u = true ∧ pyEndsWith u "/" = false))
    ∧ (∀ world : String → Option Node, cardFetchURL base_shop_url item = none →
        extractCard world base_shop_url item = none)
    ∧ (∀ item2 : Node,
        resolveCardLink base_shop_url item2 =
            some "https://shop.example/products/summer-collection/" →
          cardFetchURL base_shop_url item2 = none) := by
  refine ⟨?_, ?_, ?_⟩
  · intro u
    cases hr : resolveCardLink base_shop_url item with
    | none =>
      simp [cardFetchURL, hr]
    | some w =>
      simp only [cardFetchURL, hr]
      constructor
      · intro hsome
        split_ifs at hsome with hg
        cases hsome
        simp only [Bool.and_eq_true, Bool.not_eq_true'] at hg
        exact ⟨rfl, hg.1, hg.2⟩
      · rintro ⟨hv, hin, hend⟩
        cases hv
        rw [if_pos (by simp [hin, hend])]
  · intro world hnone
    simp only [extractCard, hnone]
  · intro item2 hres
    simp only [cardFetchURL, hres]
    rw [if_neg (by decide)]

/-- Witness for C7: a card linking a detail-shaped URL is fetched with that
URL, and a card linking a trailing-slash collection URL is excluded. -/
theorem detail_link_heuristic_witness :
    cardFetchURL "https://shop.example" cardC7 = some "https://shop.example/products/item-1"
    ∧ cardFetchURL "https://shop.example" cardC7b = none :=
  ⟨((detail_link_heuristic "https://shop.example" cardC7).1
      "https://shop.example/products/item-1").mpr ⟨rfl, by decide, by decide⟩,
   (detail_link_heuristic "https://shop.example" cardC7).2.2 cardC7b rfl⟩

/-! ### Claim C3 -/

/-- Claim C3: the pagination loop terminates in one further step with normal
completion (`done`) in each of the three exhaustion cases — zero product
cards on the listing page, no resolvable next link (region or link or its
attribute absent), and a next link resolving to the current page URL — for
any remaining fuel, i.e. within a bounded number of steps. -/
theorem pagination_termination (world : String → Option Node) (base_shop_url : String)
    (fuel page_num : Nat) (acc : List ProductData) (doc : Node)
    (hfetch : world (pageURL base_shop_url page_num) = some doc) :
    (productCards doc = [] →
      crawlLoop world base_shop_url (fuel + 1) page_num acc = (acc, some CrawlOutcome.done))
    ∧ (productCards doc ≠ [] → nextPageURL base_shop_url doc = none →
      crawlLoop world base_shop_url (fuel + 1) page_num acc =
        (acc ++ processItems world base_shop_url (productCards doc), some CrawlOutcome.done))
    ∧ (∀ nxt, productCards doc ≠ [] → nextPageURL base_shop_url doc = some nxt →
      nxt = pageURL base_shop_url page_num →
      crawlLoop world base_shop_url (fuel + 1) page_num acc =
        (acc ++ processItems world base_shop_url (productCards doc), some CrawlOutcome.done)) := by
  refine ⟨?_, ?_, ?_⟩
  · intro hempty
    simp [crawlLoop, hfetch, hempty]
  · intro hne hnone
    have hb : (productCards doc).isEmpty = false := by
      simp [List.isEmpty_eq_false, hne]
    simp [crawlLoop, hfetch, hb, hnone]
  · intro nxt hne hsome heq
    have hb : (productCards doc).isEmpty = false := by
      simp [List.isEmpty_eq_false, hne]
    simp only [crawlLoop, hfetch, hb]
    simp only [hsome]
    rw [if_pos heq]
    simp

/-- Witness for C3: one fixture per exhaustion case, each reaching `done` in
a single iteration. -/
theorem pagination_termination_witness :
    crawlLoop worldC3a "http://s3" 1 1 [] = ([], some CrawlOutcome.done)
    ∧ crawlLoop worldC3b "http://s3" 1 1 [] = ([], some CrawlOutcome.done)
    ∧ crawlLoop worldC3c "http://s3" 1 1 [] = ([], some CrawlOutcome.done) :=
  ⟨(pagination_termination worldC3a "http://s3" 0 1 [] docC3a rfl).1 rfl,
   (pagination_termination worldC3b "http://s3" 0 1 [] docC3b rfl).2.1 (by decide) rfl,
   (pagination_termination worldC3c "http://s3" 0 1 [] docC3c rfl).2.2 "http://s3"
     (by decide) rfl rfl⟩

/-! ### Claim C4 -/

/-- Claim C4: partial-result policy — a card whose detail-page fetch fails
contributes nothing while the rest of the page is processed unchanged, and
a listing-page fetch failure stops the crawl with outcome `failed` while
returning the already-collected records intact. -/
theorem partial_result_policy (world : String → Option Node) (base_shop_url : String) :
    (∀ (pre post : List Node) (item : Node) (u : String),
      cardFetchURL base_shop_url item = some u → world u = none →
      processItems world base_shop_url (pre ++ item :: post) =
        processItems world base_shop_url pre ++ processItems world base_shop_url post)
    ∧ (∀ (fuel page_num : Nat) (acc : List ProductData),
      world (pageURL base_shop_url page_num) = none →
      crawlLoop world base_shop_url (fuel + 1) page_num acc =
        (acc, some CrawlOutcome.failed)) := by
  constructor
  · intro pre post item u hu hw
    have hnone : extractCard world base_shop_url item = none := by
      simp only [extractCard, hu, fetchParse, hw]
    simp only [processItems, List.filterMap_append]
    rw [List.filterMap_cons_none hnone]
  · intro fuel page_num acc hfail
    simp [crawlLoop, hfail]

/-- Witness for C4 in a world where every fetch fails: the qualifying card
is skipped and the crawl stops as `failed` with the accumulator intact. -/
theorem partial_result_policy_witness :
    processItems worldC4 "http://s4" ([] ++ cardC4 :: []) =
      processItems worldC4 "http://s4" [] ++ processItems worldC4 "http://s4" []
    ∧ crawlLoop worldC4 "http://s4" 1 1 [] = ([], some CrawlOutcome.failed) :=
  ⟨(partial_result_policy worldC4 "http://s4").1 [] [] cardC4 "http://s4/products/x" rfl rfl,
   (partial_result_policy worldC4 "http://s4").2 0 1 [] rfl⟩

/-! ### Claim C8 -/

/-- Claim C8 counterexample: a listing page with two cards linking the same
detail URL yields two records with the same sourceURL — the collected
sequence is not keyed uniquely, since the crawl performs no deduplication. -/
theorem dedup_invariant_counterexample :
    (crawl_shop_pages worldC8 "http://s8" 1).1.map ProductData.original_url =
      ["http://s8/products/a", "http://s8/products/a"]
    ∧ ¬ ((crawl_shop_pages worldC8 "http://s8" 1).1.map ProductData.original_url).Nodup := by
  refine ⟨rfl, ?_⟩
  show ¬ (["http://s8/products/a", "http://s8/products/a"] : List String).Nodup
  decide

/-- Claim C8 (amended): the crawl emits one record per qualifying,
successfully fetched and extracted card, in card order and keyed by that
card's resolved URL — but it never deduplicates, so a detail URL linked
from several cards (or several pages) appears once per card. -/
theorem dedup_invariant_amended (world : String → Option Node) (base_shop_url : String)
    (items : List Node) :
    processItems world base_shop_url items =
      (items.filterMap (cardFetchURL base_shop_url)).filterMap (fetchParse world)
    ∧ ∀ u rec, fetchParse world u = some rec → rec.original_url = u := by
  constructor
  · rw [List.filterMap_filterMap]
    have hpt : extractCard world base_shop_url = fun x =>
        (cardFetchURL base_shop_url x).bind (fetchParse world) := by
      funext x
      cases h : cardFetchURL base_shop_url x <;> simp [extractCard, h]
    rw [processItems, hpt]
  · intro u rec h
    unfold fetchParse at h
    cases hw : world u <;> rw [hw] at h
    · cases h
    · exact (parse_product_details_some u _ rec h).1

/-- Witness for the amended C8: a fetched record is keyed by the URL it was
fetched from. -/
theorem dedup_invariant_amended_witness :
    recC5.original_url = "http://s5/products/a" :=
  (dedup_invariant_amended
      (fun u => if u = "http://s5/products/a" then some docC5 else none) "http://s5" []).2
    "http://s5/products/a" recC5 rfl

end RudrCrawl
